import Mathlib

/-!
A shallow embedding of the pxp-agent (cthun-agent) request-processing code:

* `src/lib/src/request_processor.cc` — `nonBlockingActionTask`,
  `RequestProcessor::processNonBlockingRequest`;
* `src/src/agent/agent_endpoint.cpp` — `AgentEndpoint::handle_message`,
  `AgentEndpoint::monitorConnectionState`, `AgentEndpoint::connect_and_run`.

Observable behaviour (file writes, message sends, the done flag) is modelled
as a trace of events.  Data containers are association lists of JSON-like
values; serialized sub-objects (request `params`, action `results`) are
carried as their serialization strings.
-/

namespace CthunAgent

/-- A JSON-like value as stored in a `CthunClient::DataContainer` entry.
Nested objects that the claims treat opaquely (params, results) are carried
as their serialization via `JVal.s`. -/
inductive JVal
  | s (v : String)
  | b (v : Bool)
deriving DecidableEq

/-- `CthunClient::DataContainer`: an ordered mapping from keys to values. -/
structure DC where
  entries : List (String × JVal)
deriving DecidableEq

/-- `DataContainer::set<T>(key, value)`: update in place if the key exists,
otherwise append the new entry. -/
def DC.set (dc : DC) (k : String) (v : JVal) : DC :=
  if dc.entries.any (fun p => p.1 == k) then
    ⟨dc.entries.map (fun p => if p.1 == k then (k, v) else p)⟩
  else
    ⟨dc.entries ++ [(k, v)]⟩

/-- `DataContainer::get<T>(key)`. -/
def DC.get (dc : DC) (k : String) : Option JVal :=
  (dc.entries.find? (fun p => p.1 == k)).map (fun p => p.2)

/-- Rendering of a single JSON value. -/
def JVal.render : JVal → String
  | .s v => "\x22" ++ v ++ "\x22"
  | .b true => "true"
  | .b false => "false"

/-- `DataContainer::toString()`: JSON serialization of the container. -/
def DC.toString (dc : DC) : String :=
  "\x7b" ++ String.intercalate ","
    (dc.entries.map (fun p => "\x22" ++ p.1 ++ "\x22:" ++ p.2.render)) ++ "\x7d"

/-- The fields of `CthunClient::ParsedChunks` that the request processor
reads: envelope `id` and `sender`, data `transaction_id`, the serialization
of data `params` (the result of `.toString()` on the params container), and
data `notify_outcome`. -/
structure ParsedChunks where
  id : String
  sender : String
  transaction_id : String
  params_txt : String
  notify_outcome : Bool
deriving DecidableEq

/-- `ActionOutcome::Type`. -/
inductive OutcomeType
  | External
  | Internal
deriving DecidableEq

/-- `ActionOutcome`: `results` is carried as its serialization string. -/
structure ActionOutcome where
  type : OutcomeType
  stdout : String
  stderr : String
  results : String
deriving DecidableEq

/-- The default-constructed `ActionOutcome {}` of the C++ task body. -/
def ActionOutcome.default : ActionOutcome := ⟨.Internal, "", "", ""⟩

/-- Result of `module_ptr->executeAction(action_name, parsed_chunks)`:
either an outcome or a thrown `request_error` carrying its message.
(Exceptions other than `request_error` abort the task and are outside
this model, which covers tasks that run to completion.) -/
inductive ExecResult
  | success (outcome : ActionOutcome)
  | requestError (msg : String)
deriving DecidableEq

/-- The three per-job spool files. -/
inductive SpoolFile
  | status
  | stdout
  | stderr
deriving DecidableEq

/-- A spool file path: the job's results directory plus the file name. -/
structure SpoolPath where
  dir : String
  file : SpoolFile
deriving DecidableEq

/-- Outbound message types (`RPCSchemas::*_TYPE`). -/
inductive MsgType
  | blockingResponse
  | nonBlockingResponse
  | provisionalResponse
  | rpcError
deriving DecidableEq

/-- An observable action of the request processor or of an action task:
a directory creation, a task spawn, a spool-file write (`FileUtils::writeToFile`),
a send attempt on the connector, or the final `*done = true`. -/
inductive Event
  | createDir (dir : String)
  | spawn (job_id : String)
  | write (path : SpoolPath) (content : String)
  | send (msg_type : MsgType) (data : DC)
  | setDone
deriving DecidableEq

def isSetDone : Event → Bool
  | .setDone => true
  | _ => false

def isProvisionalSend : Event → Bool
  | .send .provisionalResponse _ => true
  | _ => false

def isRpcErrorSend : Event → Bool
  | .send .rpcError _ => true
  | _ => false

def isSpoolWrite : Event → Bool
  | .write _ _ => true
  | _ => false

def isStatusWrite : Event → Bool
  | .write ⟨_, .status⟩ _ => true
  | _ => false

/-- The initial `action_status` container built by `nonBlockingActionTask`
(request_processor.cc lines 53-63): module, action, status=running,
duration="0 s", and input = serialized params, or the literal "none" when
that serialization is empty. -/
def initialStatus (module_name action_name : String) (chunks : ParsedChunks) : DC :=
  let st := ((⟨[]⟩ : DC).set "module" (.s module_name)).set "action" (.s action_name)
  let st := (st.set "status" (.s "running")).set "duration" (.s "0 s")
  if !chunks.params_txt.isEmpty then
    st.set "input" (.s chunks.params_txt)
  else
    st.set "input" (.s "none")

/-- The final `action_status` container (request_processor.cc lines 125-127):
the initial one with status=completed and duration updated from the timer.
`elapsed` is `timer.elapsedSeconds()`.

Modelled from the spec: `cthun-agent/timer.hpp` is not under src/; per the
spec ("Stop the timer; compute `duration` as floor(seconds)"),
`Timer::elapsedSeconds` yields the floor of the elapsed wall-clock seconds,
a natural number. -/
def finalStatus (module_name action_name : String) (chunks : ParsedChunks)
    (elapsed : Nat) : DC :=
  ((initialStatus module_name action_name chunks).set "status" (.s "completed")).set
    "duration" (.s (ToString.toString elapsed ++ " s"))

/-- The event trace of `nonBlockingActionTask` (request_processor.cc lines
39-151), for a task that runs to completion.  `exec` is the outcome of
`executeAction`; `elapsed` is the timer reading at finalization. -/
def nonBlockingActionTask (module_name action_name : String) (chunks : ParsedChunks)
    (job_id results_dir : String) (exec : ExecResult) (elapsed : Nat) : List Event :=
  let st0 := initialStatus module_name action_name chunks
  -- Initialize outcome files (lines 65-68)
  let initEvents : List Event :=
    [ .write ⟨results_dir, .stdout⟩ "",
      .write ⟨results_dir, .stderr⟩ "",
      .write ⟨results_dir, .status⟩ (DC.toString st0 ++ "\n") ]
  -- try { executeAction; notify } catch (request_error) { rpc_error } (lines 75-122)
  let err_msg : String :=
    match exec with
    | .success _ => ""
    | .requestError m => m
  let outcome : ActionOutcome :=
    match exec with
    | .success o => o
    | .requestError _ => ActionOutcome.default
  let execEvents : List Event :=
    match exec with
    | .success o =>
      if chunks.notify_outcome then
        [ .send .nonBlockingResponse
            ((((⟨[]⟩ : DC).set "transaction_id" (.s chunks.transaction_id)).set
                "job_id" (.s job_id)).set "results" (.s o.results)) ]
      else []
    | .requestError m =>
      [ .send .rpcError
          ((((⟨[]⟩ : DC).set "transaction_id" (.s chunks.transaction_id)).set
              "id" (.s chunks.id)).set "description" (.s m)) ]
  -- Store results on disk (lines 124-147)
  let stF := finalStatus module_name action_name chunks elapsed
  let finalEvents : List Event :=
    [ .write ⟨results_dir, .status⟩ (DC.toString stF ++ "\n") ] ++
    (if err_msg.isEmpty then
      match outcome.type with
      | .External =>
        [ .write ⟨results_dir, .stdout⟩ (outcome.stdout ++ "\n") ] ++
        (if !outcome.stderr.isEmpty then
          [ .write ⟨results_dir, .stderr⟩ (outcome.stderr ++ "\n") ]
        else [])
      | .Internal =>
        [ .write ⟨results_dir, .stdout⟩ (outcome.results ++ "\n") ]
    else
      [ .write ⟨results_dir, .stderr⟩
          ("Failed to execute '" ++ module_name ++ " " ++ action_name ++ "': "
            ++ err_msg ++ "\n") ])
  -- Flag end of processing (line 150)
  initEvents ++ execEvents ++ finalEvents ++ [ .setDone ]

/-- The `provisional_data` container (request_processor.cc lines 252-258). -/
def provisionalData (transaction_id job_id err_msg : String) : DC :=
  let d := (((⟨[]⟩ : DC).set "transaction_id" (.s transaction_id)).set
              "success" (.b err_msg.isEmpty)).set "job_id" (.s job_id)
  if !err_msg.isEmpty then d.set "error" (.s err_msg) else d

/-- Environment of one `processNonBlockingRequest` call: whether the results
directory already exists, whether `FileUtils::createDirectory` succeeds,
whether spawning the task thread succeeds, and the `what()` of the exception
when it does not. -/
structure ProcEnv where
  dirExists : Bool
  createOk : Bool
  spawnOk : Bool
  spawnErrWhat : String

/-- The event trace of `RequestProcessor::processNonBlockingRequest`
(request_processor.cc lines 202-273).  `job_id` is the value drawn from
`UUID::getUUID()` (the UUID source is not under src/ and is a parameter
here); `spool_dir` is `spool_dir_`, assumed to end with '/'.  A thrown
`request_processing_error` is the `.error` case, carrying the message. -/
def processNonBlockingRequest (chunks : ParsedChunks) (job_id spool_dir : String)
    (env : ProcEnv) : Except String (List Event) :=
  let results_dir := spool_dir ++ job_id
  if !env.dirExists && !env.createOk then
    .error ("failed to create directory '" ++ results_dir ++ "'")
  else
    let mkdirEvents : List Event :=
      if !env.dirExists then [ .createDir results_dir ] else []
    let err_msg : String :=
      if env.spawnOk then "" else "failed to start action task: " ++ env.spawnErrWhat
    let spawnEvents : List Event := if env.spawnOk then [ .spawn job_id ] else []
    .ok (mkdirEvents ++ spawnEvents ++
      [ .send .provisionalResponse
          (provisionalData chunks.transaction_id job_id err_msg) ])

/-- `Interleave xs ys zs`: `zs` is a merge of `xs` and `ys` preserving the
relative order of each. -/
inductive Interleave : List Event → List Event → List Event → Prop
  | nil : Interleave [] [] []
  | left {x xs ys zs} : Interleave xs ys zs → Interleave (x :: xs) ys (x :: zs)
  | right {y xs ys zs} : Interleave xs ys zs → Interleave xs (y :: ys) (y :: zs)

/-- A complete run of one accepted non-blocking request whose spool directory
was created and whose task thread was spawned: the processor's events up to
the spawn come first; after the spawn, the task's events interleave
arbitrarily with the processor's remaining events (the provisional send),
since the task runs on its own thread. -/
def NonBlockingRun (module_name action_name : String) (chunks : ParsedChunks)
    (job_id spool_dir : String) (exec : ExecResult) (elapsed : Nat)
    (run : List Event) : Prop :=
  let results_dir := spool_dir ++ job_id
  let pre : List Event := [ .createDir results_dir, .spawn job_id ]
  let post : List Event :=
    [ .send .provisionalResponse (provisionalData chunks.transaction_id job_id "") ]
  let task := nonBlockingActionTask module_name action_name chunks job_id
    results_dir exec elapsed
  ∃ z, Interleave post task z ∧ run = pre ++ z

end CthunAgent

-- DEFS_CONTINUE

namespace Cthun.Agent

/-- The validation-relevant shape of an inbound text frame as seen by
`AgentEndpoint::handle_message` (agent_endpoint.cpp lines 254-288): whether
`Json::Reader::parse` succeeds, whether the document validates against the
network-message (envelope) schema, the document's `data_schema` string,
whether `data` validates against the cnc data schema, and the fields read
afterwards. -/
structure InboundMsg where
  parseOk : Bool
  envelopeValid : Bool
  data_schema : String
  dataValid : Bool
  sender : String
  module_name : String
  action_name : String
deriving DecidableEq

/-- Result of `module->validate_and_call_action(action, input, output)`:
either the output value it produced, or a thrown `validation_error` with its
message.  The output `Json::Value` is modelled as a `CthunAgent.DC`. -/
inductive CallResult
  | output (o : CthunAgent.DC)
  | validationErr (msg : String)
deriving DecidableEq

/-- An observable action of `AgentEndpoint::handle_message`: invoking a
module action, or attempting to send the response whose `data.response`
object is the given value. -/
inductive AEEvent
  | invokeAction (module_name action_name : String)
  | sendResponse (response_out : CthunAgent.DC)
deriving DecidableEq

/-- The cnc request data schema URI checked at agent_endpoint.cpp line 274. -/
def cncSchemaUri : String := "http://puppetlabs.com/cncschema"

/-- The event trace of `AgentEndpoint::handle_message` (agent_endpoint.cpp
lines 254-345).  `registry` is the set of keys of `modules_`; `call` is the
behaviour of `validate_and_call_action` when it is reached.  A dropped
message yields the empty trace. -/
def handle_message (msg : InboundMsg) (registry : List String)
    (call : CallResult) : List AEEvent :=
  if msg.parseOk = false then []
  else if msg.envelopeValid = false then []
  else if cncSchemaUri ≠ msg.data_schema then []
  else if msg.dataValid = false then []
  else
    let invokeEvents : List AEEvent :=
      if registry.contains msg.module_name then
        [ .invokeAction msg.module_name msg.action_name ]
      else []
    let output : CthunAgent.DC :=
      if registry.contains msg.module_name then
        match call with
        | .output o => o
        | .validationErr m => ⟨[("error", .s m)]⟩
      else
        ⟨[("error", .s ("Unknown module: '" ++ msg.module_name ++ "'"))]⟩
    invokeEvents ++ [ .sendResponse output ]

/-- Outcome of running the agent's connection code for a bounded number of
loop iterations: either it is still inside `monitorConnectionState`'s
`while (1)` loop, or a `fatal_error` with the given message was thrown.
There is no constructor for a normal return, because neither
`monitorConnectionState` nor `connect_and_run` has a path that returns. -/
inductive AgentOutcome
  | stillLooping
  | fatal (msg : String)
deriving DecidableEq

/-- `AgentEndpoint::monitorConnectionState` (agent_endpoint.cpp lines
395-413), run for `fuel` iterations of its `while (1)` loop starting at
iteration `i`.  `connOpen k` tells whether the connection state is open at
iteration `k`; `reconnectOk k` tells whether the reconnection attempt at
iteration `k` (open + waitForOpen) succeeds, i.e. raises no
`connection_error`. -/
def monitorConnectionState (connOpen reconnectOk : Nat → Bool) :
    Nat → Nat → AgentOutcome
  | _, 0 => .stillLooping
  | i, fuel + 1 =>
    if connOpen i then
      monitorConnectionState connOpen reconnectOk (i + 1) fuel
    else if reconnectOk i then
      monitorConnectionState connOpen reconnectOk (i + 1) fuel
    else
      .fatal "failed to reconnect"

/-- `AgentEndpoint::connect_and_run` (agent_endpoint.cpp lines 163-200):
configure the secure endpoint (fatal on failure), open the connection and
wait (fatal on failure), start the heartbeat task, then enter
`monitorConnectionState`. -/
def connect_and_run (configOk openOk : Bool) (connOpen reconnectOk : Nat → Bool)
    (fuel : Nat) : AgentOutcome :=
  if configOk = false then .fatal "failed to configure the WebSocket endpoint"
  else if openOk = false then .fatal "failed to connect"
  else monitorConnectionState connOpen reconnectOk 0 fuel

end Cthun.Agent

namespace CthunAgent

lemma isEmpty_empty_string : ("" : String).isEmpty = true := rfl

lemma isEmpty_append_of_ne (a b : String) (h : a ≠ "") :
    (a ++ b).isEmpty = false := by
  rw [Bool.eq_false_iff]
  intro hc
  rw [String.isEmpty_iff] at hc
  apply h
  have hd : a.data ++ b.data = [] := by
    have := congrArg String.data hc
    simpa [String.data_append] using this
  exact String.ext (List.append_eq_nil.mp hd).1

lemma interleave_append_all_left (xs ys : List Event) :
    Interleave xs ys (xs ++ ys) := by
  induction xs with
  | nil =>
    induction ys with
    | nil => exact .nil
    | cons y ys ih => exact .right ih
  | cons x xs ih => exact .left ih

lemma interleave_countP (p : Event → Bool) {xs ys zs : List Event}
    (h : Interleave xs ys zs) :
    zs.countP p = xs.countP p + ys.countP p := by
  induction h with
  | nil => rfl
  | left h ih => simp [List.countP_cons, ih]; omega
  | right h ih => simp [List.countP_cons, ih]; omega

lemma task_countP_provisional (module_name action_name : String)
    (chunks : ParsedChunks) (job_id results_dir : String) (exec : ExecResult)
    (elapsed : Nat) :
    (nonBlockingActionTask module_name action_name chunks job_id results_dir exec
        elapsed).countP isProvisionalSend = 0 := by
  unfold nonBlockingActionTask
  rcases exec with ⟨⟨t, so, se, r⟩⟩ | m
  · cases t <;> cases hn : chunks.notify_outcome <;>
      by_cases hse : se.isEmpty <;>
      simp [hse, List.countP_append, List.countP_cons, isProvisionalSend,
        isEmpty_empty_string]
  · by_cases hm : m.isEmpty <;>
      simp [hm, ActionOutcome.default, List.countP_append, List.countP_cons,
        isProvisionalSend]

/-- C1: for every non-blocking action task that runs to completion — the
action succeeding or raising a `request_error` — the shared done flag is set
exactly once, and the `*done = true` assignment is the task's last
observable action, after the final status write and the stdout/stderr
writes. -/
theorem C1_done_flag_set_once_and_last (module_name action_name : String)
    (chunks : ParsedChunks) (job_id results_dir : String) (exec : ExecResult)
    (elapsed : Nat) :
    (nonBlockingActionTask module_name action_name chunks job_id results_dir exec
        elapsed).getLast? = some .setDone ∧
    (nonBlockingActionTask module_name action_name chunks job_id results_dir exec
        elapsed).countP isSetDone = 1 := by
  unfold nonBlockingActionTask
  rcases exec with ⟨⟨t, so, se, r⟩⟩ | m
  · cases t <;> cases hn : chunks.notify_outcome <;>
      by_cases hse : se.isEmpty <;>
      simp [hse, List.getLast?_concat, List.countP_append, List.countP_cons,
        isSetDone, isEmpty_empty_string]
  · by_cases hm : m.isEmpty <;>
      simp [hm, ActionOutcome.default, List.getLast?_concat, List.countP_append,
        List.countP_cons, isSetDone]

/-- C5: when executing a non-blocking action raises a `request_error` (whose
message, per the spec's error catalogue, is non-empty), the task attempts
exactly one `rpc_error` send, with data `{transaction_id, id = request id,
description = the error message}`, and writes to the job's stderr file the
message `Failed to execute '<module> <action>': <err>` followed by a
newline. -/
theorem C5_request_error_rpc_error_and_stderr (module_name action_name : String)
    (chunks : ParsedChunks) (job_id results_dir : String) (m : String)
    (elapsed : Nat) (hm : m.isEmpty = false) :
    (nonBlockingActionTask module_name action_name chunks job_id results_dir
        (.requestError m) elapsed).countP isRpcErrorSend = 1 ∧
    Event.send .rpcError ⟨[("transaction_id", .s chunks.transaction_id),
        ("id", .s chunks.id), ("description", .s m)]⟩ ∈
      nonBlockingActionTask module_name action_name chunks job_id results_dir
        (.requestError m) elapsed ∧
    Event.write ⟨results_dir, .stderr⟩
        ("Failed to execute '" ++ module_name ++ " " ++ action_name ++ "': "
          ++ m ++ "\n") ∈
      nonBlockingActionTask module_name action_name chunks job_id results_dir
        (.requestError m) elapsed := by
  unfold nonBlockingActionTask
  refine ⟨?_, ?_, ?_⟩ <;>
    simp [hm, DC.set, List.countP_append, List.countP_cons, isRpcErrorSend]

/-- C6: after a non-blocking task run, the final status record shows
`status=completed` and `duration` equal to the floor of the elapsed
wall-clock seconds (the timer reading at finalization) rendered as an
integer followed by `" s"`; the last write to the job's status file carries
exactly that record. -/
theorem C6_final_status_completed_duration (module_name action_name : String)
    (chunks : ParsedChunks) (job_id results_dir : String) (exec : ExecResult)
    (elapsed : Nat) :
    (finalStatus module_name action_name chunks elapsed).get "status"
      = some (.s "completed") ∧
    (finalStatus module_name action_name chunks elapsed).get "duration"
      = some (.s (ToString.toString elapsed ++ " s")) ∧
    ((nonBlockingActionTask module_name action_name chunks job_id results_dir exec
        elapsed).filter isStatusWrite).getLast?
      = some (.write ⟨results_dir, .status⟩
          (DC.toString (finalStatus module_name action_name chunks elapsed)
            ++ "\n")) := by
  refine ⟨?_, ?_, ?_⟩
  · by_cases hp : chunks.params_txt.isEmpty <;>
      simp [finalStatus, initialStatus, DC.set, DC.get, hp]
  · by_cases hp : chunks.params_txt.isEmpty <;>
      simp [finalStatus, initialStatus, DC.set, DC.get, hp]
  · unfold nonBlockingActionTask
    rcases exec with ⟨⟨t, so, se, r⟩⟩ | m
    · cases t <;> cases hn : chunks.notify_outcome <;>
        by_cases hse : se.isEmpty <;>
        simp [hse, isStatusWrite, isEmpty_empty_string]
    · by_cases hm : m.isEmpty <;>
        simp [hm, ActionOutcome.default, isStatusWrite]

/-- C7: in the initial status record of every non-blocking job, the `input`
field is the serialization of the request's params when that serialization
is non-empty, and the literal string "none" when it is empty; the first
write to the job's status file carries exactly that record. -/
theorem C7_initial_status_input_field (module_name action_name : String)
    (chunks : ParsedChunks) (job_id results_dir : String) (exec : ExecResult)
    (elapsed : Nat) :
    (initialStatus module_name action_name chunks).get "input"
      = some (.s (if chunks.params_txt.isEmpty then "none"
                  else chunks.params_txt)) ∧
    ((nonBlockingActionTask module_name action_name chunks job_id results_dir exec
        elapsed).filter isStatusWrite).head?
      = some (.write ⟨results_dir, .status⟩
          (DC.toString (initialStatus module_name action_name chunks)
            ++ "\n")) := by
  constructor
  · by_cases hp : chunks.params_txt.isEmpty <;>
      simp [initialStatus, DC.set, DC.get, hp]
  · unfold nonBlockingActionTask
    rcases exec with ⟨⟨t, so, se, r⟩⟩ | m
    · cases t <;> cases hn : chunks.notify_outcome <;>
        by_cases hse : se.isEmpty <;>
        simp [hse, isStatusWrite, isEmpty_empty_string]
    · by_cases hm : m.isEmpty <;>
        simp [hm, ActionOutcome.default, isStatusWrite]

/-- Witness for C5: the guarantee at a concrete request-error run. -/
theorem C5_request_error_witness :
    ("boom" : String).isEmpty = false ∧
    Event.write ⟨"/s/J", .stderr⟩ "Failed to execute 'm a': boom\n" ∈
      nonBlockingActionTask "m" "a" ⟨"rid", "snd", "tid", "", false⟩ "J" "/s/J"
        (.requestError "boom") 2 :=
  ⟨rfl, (C5_request_error_rpc_error_and_stderr "m" "a"
      ⟨"rid", "snd", "tid", "", false⟩ "J" "/s/J" "boom" 2 rfl).2.2⟩

/-- C3 counterexample: when the spool directory for the freshly drawn job id
already exists, `processNonBlockingRequest` neither draws a new UUID nor
fails with a `request_processing_error`: it succeeds, creates nothing, and
the provisional reply carries the same job id with success=true. -/
theorem C3_collision_counterexample :
    processNonBlockingRequest ⟨"rid", "snd", "tid", "", false⟩ "J" "/s/"
        ⟨true, true, true, ""⟩
      = .ok [ .spawn "J",
              .send .provisionalResponse
                ⟨[("transaction_id", .s "tid"), ("success", .b true),
                  ("job_id", .s "J")]⟩ ] := rfl

/-- C3 amended: a collision with an existing spool directory is not handled
at all: the processor silently reuses the existing directory for the same
job id and succeeds; a `request_processing_error` arises only when the
directory does not exist and creating it fails. -/
theorem C3_collision_reuses_directory (chunks : ParsedChunks)
    (job_id spool_dir : String) (c : Bool) (w : String) :
    processNonBlockingRequest chunks job_id spool_dir ⟨true, c, true, w⟩
      = .ok [ .spawn job_id,
              .send .provisionalResponse
                (provisionalData chunks.transaction_id job_id "") ] ∧
    (∀ s : Bool,
      processNonBlockingRequest chunks job_id spool_dir ⟨false, false, s, w⟩
        = .error ("failed to create directory '" ++ (spool_dir ++ job_id) ++ "'")) := by
  constructor
  · simp [processNonBlockingRequest]
  · intro s
    simp [processNonBlockingRequest]

/-- C4 counterexample: when creating the job spool directory fails, the
`request_processing_error` is not recovered inside the processor and no
provisional reply is sent: `processNonBlockingRequest` exits with the error
before reaching the send. -/
theorem C4_dir_failure_counterexample :
    processNonBlockingRequest ⟨"rid", "snd", "tid", "", false⟩ "J" "/s/"
        ⟨false, false, true, ""⟩
      = .error "failed to create directory '/s/J'" := rfl

/-- C4 amended: a failure to spawn the action task is recovered at the
processor level and surfaces as success=false on the provisional reply,
which is still sent, with the error field carrying the reason; a failure to
create the job spool directory instead escapes `processNonBlockingRequest`
as a `request_processing_error` and no provisional reply is sent by it. -/
theorem C4_spawn_failure_recovered (chunks : ParsedChunks)
    (job_id spool_dir w : String) :
    (∃ d : DC,
      processNonBlockingRequest chunks job_id spool_dir ⟨false, true, false, w⟩
        = .ok [ .createDir (spool_dir ++ job_id), .send .provisionalResponse d ] ∧
      d.get "success" = some (.b false) ∧
      d.get "error" = some (.s ("failed to start action task: " ++ w))) ∧
    processNonBlockingRequest chunks job_id spool_dir ⟨false, false, true, w⟩
      = .error ("failed to create directory '" ++ (spool_dir ++ job_id) ++ "'") := by
  have he : ("failed to start action task: " ++ w).isEmpty = false :=
    isEmpty_append_of_ne _ w (by decide)
  refine ⟨⟨provisionalData chunks.transaction_id job_id
      ("failed to start action task: " ++ w), ?_, ?_, ?_⟩, ?_⟩
  · simp [processNonBlockingRequest]
  · simp [provisionalData, DC.set, DC.get, he]
  · simp [provisionalData, DC.set, DC.get, he]
  · simp [processNonBlockingRequest]

/-- C2 counterexample: a valid run of an accepted non-blocking request in
which the provisional reply is sent before any spool-file write has
occurred: the spawned task, which is what creates the status, stdout and
stderr files, has not yet run when the reply goes out. -/
theorem C2_reply_before_files_counterexample :
    ∃ run : List Event,
      NonBlockingRun "m" "a" ⟨"rid", "snd", "tid", "", false⟩ "J" "/s/"
        (.success ⟨.Internal, "", "", "RES"⟩) 0 run ∧
      run.countP isProvisionalSend = 1 ∧
      (run.takeWhile (fun e => !isProvisionalSend e)).countP isSpoolWrite = 0 ∧
      run.countP isSpoolWrite > 0 := by
  refine ⟨[.createDir "/s/J", .spawn "J"] ++
    ([.send .provisionalResponse (provisionalData "tid" "J" "")] ++
      nonBlockingActionTask "m" "a" ⟨"rid", "snd", "tid", "", false⟩ "J" "/s/J"
        (.success ⟨.Internal, "", "", "RES"⟩) 0),
    ⟨_, interleave_append_all_left _ _, rfl⟩, ?_, ?_, ?_⟩ <;> decide

/-- C2 amended: for every accepted non-blocking request whose spool
directory is freshly created, the directory creation is the first event of
every run — in particular it precedes the provisional reply, of which every
run contains exactly one attempt; the status, stdout and stderr files
(initial status record included, with status=running) are created by the
spawned task, which runs concurrently with the provisional reply, so their
creation is not ordered before it. -/
theorem C2_dir_before_reply_files_by_task (module_name action_name : String)
    (chunks : ParsedChunks) (job_id spool_dir : String) (exec : ExecResult)
    (elapsed : Nat) (run : List Event)
    (h : NonBlockingRun module_name action_name chunks job_id spool_dir exec
      elapsed run) :
    run.head? = some (.createDir (spool_dir ++ job_id)) ∧
    run.countP isProvisionalSend = 1 ∧
    (.write ⟨spool_dir ++ job_id, .stdout⟩ "" ∈
        nonBlockingActionTask module_name action_name chunks job_id
          (spool_dir ++ job_id) exec elapsed ∧
      .write ⟨spool_dir ++ job_id, .stderr⟩ "" ∈
        nonBlockingActionTask module_name action_name chunks job_id
          (spool_dir ++ job_id) exec elapsed ∧
      .write ⟨spool_dir ++ job_id, .status⟩
          (DC.toString (initialStatus module_name action_name chunks) ++ "\n") ∈
        nonBlockingActionTask module_name action_name chunks job_id
          (spool_dir ++ job_id) exec elapsed) ∧
    (initialStatus module_name action_name chunks).get "status"
      = some (.s "running") := by
  obtain ⟨z, hz, hrun⟩ := h
  refine ⟨?_, ?_, ?_, ?_⟩
  · rw [hrun]; rfl
  · rw [hrun]
    have hcount := interleave_countP isProvisionalSend hz
    simp [List.countP_append, List.countP_cons, isProvisionalSend, hcount,
      task_countP_provisional]
  · refine ⟨?_, ?_, ?_⟩ <;>
      · unfold nonBlockingActionTask
        simp
  · by_cases hp : chunks.params_txt.isEmpty <;>
      simp [initialStatus, DC.set, DC.get, hp]

/-- Witness for C2's amended theorem at a concrete run. -/
theorem C2_dir_before_reply_witness :
    ([Event.createDir "/s/J", .spawn "J"] ++
      ([Event.send .provisionalResponse (provisionalData "tid" "J" "")] ++
        nonBlockingActionTask "m" "a" ⟨"rid", "snd", "tid", "", false⟩ "J" "/s/J"
          (.success ⟨.Internal, "", "", "RES"⟩) 0)).head?
      = some (.createDir ("/s/" ++ "J")) :=
  (C2_dir_before_reply_files_by_task "m" "a" ⟨"rid", "snd", "tid", "", false⟩
    "J" "/s/" (ExecResult.success ⟨OutcomeType.Internal, "", "", "RES"⟩) 0 _
    ⟨_, interleave_append_all_left _ _, rfl⟩).1

end CthunAgent

namespace Cthun.Agent

/-- C8: an inbound text frame that fails JSON parsing, envelope schema
validation, the cnc `data_schema` check, or cnc data schema validation is
dropped: `handle_message` produces no events — no module action is invoked
and no reply of any kind is attempted. -/
theorem C8_invalid_message_dropped (msg : InboundMsg) (registry : List String)
    (call : CallResult)
    (h : msg.parseOk = false ∨ msg.envelopeValid = false ∨
      msg.data_schema ≠ cncSchemaUri ∨ msg.dataValid = false) :
    handle_message msg registry call = [] := by
  unfold handle_message
  split_ifs with h1 h2 h3 h4 <;> try rfl
  all_goals rcases h with h | h | h | h <;> simp_all

/-- Witness for C8 on a concrete frame that fails JSON parsing. -/
theorem C8_invalid_message_dropped_witness :
    handle_message ⟨false, true, cncSchemaUri, true, "snd", "echo", "run"⟩
      ["echo"] (.output ⟨[]⟩) = [] :=
  C8_invalid_message_dropped ⟨false, true, cncSchemaUri, true, "snd", "echo", "run"⟩
    ["echo"] (.output ⟨[]⟩) (Or.inl rfl)

/-- C9: a schema-valid cnc request naming a module absent from the registry
is not dropped: `handle_message` invokes no action but attempts to send a
response whose `data.response` object is exactly
`{error: "Unknown module: '<module_name>'"}`. -/
theorem C9_unknown_module_error_response (msg : InboundMsg)
    (registry : List String) (call : CallResult)
    (h1 : msg.parseOk = true) (h2 : msg.envelopeValid = true)
    (h3 : msg.data_schema = cncSchemaUri) (h4 : msg.dataValid = true)
    (h5 : registry.contains msg.module_name = false) :
    handle_message msg registry call
      = [ .sendResponse
            ⟨[("error", .s ("Unknown module: '" ++ msg.module_name ++ "'"))]⟩ ] := by
  have h5m : ¬ (msg.module_name ∈ registry) := by simpa using h5
  unfold handle_message
  simp [h1, h2, h3, h4, h5m]

/-- Witness for C9: a concrete valid request for an unregistered module. -/
theorem C9_unknown_module_witness :
    handle_message ⟨true, true, cncSchemaUri, true, "snd", "pkg", "install"⟩
      ["echo", "inventory", "ping"] (.output ⟨[]⟩)
      = [ .sendResponse ⟨[("error", .s "Unknown module: 'pkg'")]⟩ ] :=
  C9_unknown_module_error_response
    ⟨true, true, cncSchemaUri, true, "snd", "pkg", "install"⟩
    ["echo", "inventory", "ping"] (.output ⟨[]⟩) rfl rfl rfl rfl rfl

/-- C10: `monitorConnectionState` never leaves its `while (1)` loop
normally: whenever every reconnection attempt succeeds it is still looping
after any finite number of iterations, it throws
`fatal_error("failed to reconnect")` as soon as a reconnection attempt
raises a connection error, and `connect_and_run` — once endpoint
configuration and the initial connect succeed — just runs the monitor loop,
so it terminates only by such an exception. -/
theorem C10_monitor_never_returns :
    (∀ connOpen reconnectOk : Nat → Bool, ∀ i fuel : Nat,
      (∀ k, connOpen k = false → reconnectOk k = true) →
      monitorConnectionState connOpen reconnectOk i fuel = .stillLooping) ∧
    (∀ connOpen reconnectOk : Nat → Bool, ∀ i fuel : Nat,
      connOpen i = false → reconnectOk i = false →
      monitorConnectionState connOpen reconnectOk i (fuel + 1)
        = .fatal "failed to reconnect") ∧
    (∀ connOpen reconnectOk : Nat → Bool, ∀ fuel : Nat,
      connect_and_run true true connOpen reconnectOk fuel
        = monitorConnectionState connOpen reconnectOk 0 fuel) := by
  refine ⟨?_, ?_, ?_⟩
  · intro co ro i fuel h
    induction fuel generalizing i with
    | zero => rfl
    | succ n ih =>
      unfold monitorConnectionState
      by_cases hc : co i
      · simp [hc, ih]
      · have hr := h i (by simpa using hc)
        simp [hc, hr, ih]
  · intro co ro i fuel hc hr
    unfold monitorConnectionState
    simp [hc, hr]
  · intro co ro fuel
    rfl

/-- Witness for C10 on concrete connection-state streams. -/
theorem C10_monitor_witness :
    monitorConnectionState (fun _ => true) (fun _ => true) 0 5 = .stillLooping ∧
    monitorConnectionState (fun _ => false) (fun _ => false) 0 3
      = .fatal "failed to reconnect" ∧
    connect_and_run true true (fun _ => true) (fun _ => true) 5
      = monitorConnectionState (fun _ => true) (fun _ => true) 0 5 :=
  ⟨C10_monitor_never_returns.1 (fun _ => true) (fun _ => true) 0 5
      (fun _ h => Bool.noConfusion h),
   C10_monitor_never_returns.2.1 (fun _ => false) (fun _ => false) 0 2 rfl rfl,
   C10_monitor_never_returns.2.2 (fun _ => true) (fun _ => true) 5⟩

end Cthun.Agent
